import Mathlib

/-!
Shallow embedding of the jira-thing CLI (src/cli.py, src/jira_client.py,
src/main.py) for checking its natural-language specification.

The remote jira library handle is modelled as a structure of response
functions (`JIRA`): every outbound request the wrapper can make is a field,
and its value is the response the remote service would give.  The wrapper
methods of `JiraManager` are translated statement by statement from
src/jira_client.py; each returns its Python return value together with the
list of outbound remote calls it performed and the lines it printed.
Python exceptions are modelled by the `PyError` type and `Except`;
process-level behaviour (the dispatcher in src/cli.py `main`) is modelled
as a function from the argument vector to a trace of observable events and
a process outcome.
-/

/-- A project object as returned by the remote library (`project.key`,
`project.name`, `project.id`). -/
structure RProject where
  key : String
  name : String
  id : String
deriving DecidableEq

/-- The `fields` attribute of a remote issue object.  `assignee` is the
display name when an assignee exists (`issue.fields.assignee.displayName`),
`none` when the issue is unassigned; `projectKey` is
`issue.fields.project.key`; `statusName` is `issue.fields.status.name`. -/
structure RIssueFields where
  summary : String
  description : Option String
  statusName : String
  assignee : Option String
  projectKey : String
  labels : List String
deriving DecidableEq

/-- An issue object as returned by the remote library. -/
structure RIssue where
  key : String
  fields : RIssueFields
deriving DecidableEq

/-- The keyword payload built by `JiraManager.create_project`
(jira_client.py lines 71-75). -/
structure CreateProjectPayload where
  key : String
  name : String
  projectTypeKey : String
deriving DecidableEq

/-- The keyword payload built by `JiraManager.create_task`
(jira_client.py lines 102-107).  The `description` field is a `String`,
not an `Option String`: the source computes `description or ''`, so the
payload always carries a string.  `issuetypeName` models
`issuetype = {name: task_type}`. -/
structure CreateIssuePayload where
  project : String
  summary : String
  description : String
  issuetypeName : String
deriving DecidableEq

/-- Arguments of a `search_issues` request. -/
structure SearchReq where
  jql : String
  fields : List String
  maxResults : Nat
deriving DecidableEq

/-- A global status object returned by `client.statuses()`. -/
structure GlobalStatus where
  id : String
  name : String
  description : Option String
  categoryName : Option String
deriving DecidableEq

/-- One status entry of the project-statuses REST payload. -/
structure StatusJson where
  id : String
  name : String
  description : Option String
  categoryName : Option String
deriving DecidableEq

/-- One issue-type block of the project-statuses REST payload. -/
structure IssueTypeBlock where
  name : String
  statuses : List StatusJson
deriving DecidableEq

/-- One outbound call to the remote tracker service. -/
inductive RemoteCall where
  | connect
  | currentUser
  | projectsCall
  | createProjectCall (payload : CreateProjectPayload)
  | createIssueCall (payload : CreateIssuePayload)
  | searchIssues (req : SearchReq)
  | projectCall (key : Option String)
  | statusesCall
  | getUrl (url : String)
deriving DecidableEq

/-- A Python exception reaching a boundary of interest.
`raised` is a re-raised remote-library exception carrying `str(e)`;
`runtimeError` is a `RuntimeError`; `nameError` is the `NameError`
produced when an undefined name is evaluated. -/
inductive PyError where
  | raised (msg : String)
  | runtimeError (msg : String)
  | nameError (name : String)
deriving DecidableEq

/-- Decidable equality for `Except`, used to evaluate the models on
concrete inputs. -/
instance exceptDecEq {ε α : Type} [DecidableEq ε] [DecidableEq α] : DecidableEq (Except ε α) :=
  fun a b =>
    match a, b with
    | .ok x, .ok y =>
        if h : x = y then .isTrue (by rw [h])
        else .isFalse (by intro hc; injection hc; contradiction)
    | .error x, .error y =>
        if h : x = y then .isTrue (by rw [h])
        else .isFalse (by intro hc; injection hc; contradiction)
    | .ok _, .error _ => .isFalse (by intro hc; injection hc)
    | .error _, .ok _ => .isFalse (by intro hc; injection hc)

/-- The remote jira library handle, modelled as the responses the remote
service gives to each request the wrapper can make. -/
structure JIRA where
  serverUrl : String
  currentUserResp : Except String String
  projectsResp : Except String (List RProject)
  createProjectResp : CreateProjectPayload → Except String RProject
  createIssueResp : CreateIssuePayload → Except String RIssue
  searchResp : SearchReq → Except String (List RIssue)
  projectStatusesResp : Option String → Except String (List String)
  statusesResp : Except String (List GlobalStatus)
  projectStatusesHttp : String → Except String (List IssueTypeBlock)

/-- The process environment of one invocation: the outcome of constructing
the remote library handle from configuration (jira_client.py lines 20-23). -/
structure JiraEnv where
  connectResp : Except String JIRA

/-- Result of one `JiraManager` method: the Python return value (or raised
error inside `result`), the outbound remote calls performed, in order, and
the lines printed to standard output. -/
structure MRes (α : Type) where
  result : α
  calls : List RemoteCall
  out : List String

/-- Python truthiness of an optional string (`None` and `''` are falsy). -/
def strTruthy : Option String → Bool
  | none => false
  | some s => !(s == "")

/-- Python truthiness of an optional list (`None` and `[]` are falsy). -/
def listTruthy : Option (List String) → Bool
  | none => false
  | some l => !l.isEmpty

/-- Python `x or ''` for an optional string. -/
def pyOrEmpty : Option String → String
  | none => ""
  | some s => s

/-- Python `str()` of an optional string as interpolated into an f-string. -/
def optStr : Option String → String
  | none => "None"
  | some s => s

/-- Whether a token is option-like, i.e. begins with a dash. -/
def startsDash (s : String) : Bool :=
  match s.data with
  | c :: _ => c == '-'
  | [] => false

/-- Whether `pat` occurs as a prefix of `txt` (character lists). -/
def listIsPre : List Char → List Char → Bool
  | [], _ => true
  | _ :: _, [] => false
  | a :: as, b :: bs => a == b && listIsPre as bs

/-- Whether `pat` occurs anywhere inside `txt` (character lists). -/
def subOccurs (pat : List Char) : List Char → Bool
  | [] => pat.isEmpty
  | c :: rest => listIsPre pat (c :: rest) || subOccurs pat rest

/-- Python `pat in s` for strings. -/
def containsSub (s pat : String) : Bool :=
  subOccurs pat.data s.data

/-- Insert a string into a sorted list of strings. -/
def insertSorted (x : String) : List String → List String
  | [] => [x]
  | y :: ys => if decide (y < x) then y :: insertSorted x ys else x :: y :: ys

/-- Python `sorted(set(l))` for a list of strings. -/
def uniqueSorted (l : List String) : List String :=
  (l.foldl (fun acc s => if s ∈ acc then acc else acc ++ [s]) []).foldr insertSorted []

/-- JiraManager construction (jira_client.py lines 11-31): build the
library handle, then verify the connection via `current_user()`; any
exception is wrapped into
`RuntimeError("Jira client initialization failed: " + str(e))`. -/
def JiraManager.mk (env : JiraEnv) : MRes (Except PyError JIRA) :=
  match env.connectResp with
  | .error e =>
      ⟨.error (.runtimeError ("Jira client initialization failed: " ++ e)), [.connect], []⟩
  | .ok client =>
      match client.currentUserResp with
      | .error e =>
          ⟨.error (.runtimeError ("Jira client initialization failed: " ++ e)),
            [.connect, .currentUser], []⟩
      | .ok _ => ⟨.ok client, [.connect, .currentUser], []⟩

/-- A project entry as returned by `get_projects` (key and name). -/
structure ProjEntry where
  key : String
  name : String
deriving DecidableEq

/-- JiraManager.get_projects (jira_client.py lines 33-56): list projects,
normalize to key/name mappings; on failure log and re-raise. -/
def JiraManager.get_projects (client : JIRA) : MRes (Except PyError (List ProjEntry)) :=
  match client.projectsResp with
  | .ok projects =>
      ⟨.ok (projects.map fun p => ⟨p.key, p.name⟩), [.projectsCall], []⟩
  | .error e => ⟨.error (.raised e), [.projectsCall], []⟩

/-- The project summary dict returned by `create_project` on success. -/
structure ProjSummary where
  key : String
  name : String
  id : String
deriving DecidableEq

/-- JiraManager.create_project (jira_client.py lines 58-86): build the
payload, call the remote create; on success return the key/name/id dict,
on any exception log and return `None`. -/
def JiraManager.create_project (client : JIRA) (name key project_type : String) :
    MRes (Option ProjSummary) :=
  let payload : CreateProjectPayload := ⟨key, name, project_type⟩
  match client.createProjectResp payload with
  | .ok p => ⟨some ⟨p.key, p.name, p.id⟩, [.createProjectCall payload], []⟩
  | .error _ => ⟨none, [.createProjectCall payload], []⟩

/-- The task summary dict returned by `create_task` on success. -/
structure TaskSummary where
  key : String
  summary : String
  project : String
deriving DecidableEq

/-- JiraManager.create_task (jira_client.py lines 88-118): build the issue
payload (`description or ''`, `issuetype = {name: task_type}`), call the
remote create; on success return key/summary/project, on any exception log
and return `None`. -/
def JiraManager.create_task (client : JIRA) (project_key summary : String)
    (description : Option String) (task_type : String) : MRes (Option TaskSummary) :=
  let payload : CreateIssuePayload := ⟨project_key, summary, pyOrEmpty description, task_type⟩
  match client.createIssueResp payload with
  | .ok issue =>
      ⟨some ⟨issue.key, issue.fields.summary, issue.fields.projectKey⟩,
        [.createIssueCall payload], []⟩
  | .error _ => ⟨none, [.createIssueCall payload], []⟩

/-- JiraManager.create_task at its Python default arguments
(`description=None`, `task_type='Task'`, jira_client.py line 88). -/
def JiraManager.create_task_defaulted (client : JIRA) (project_key summary : String) :
    MRes (Option TaskSummary) :=
  JiraManager.create_task client project_key summary none "Task"

/-- A task entry as returned by `get_tasks` (jira_client.py lines 169-180). -/
structure TaskEntry where
  key : String
  summary : String
  description : Option String
  status : String
  assignee : String
  project : String
  labels : List String
deriving DecidableEq

/-- The field list of the main search in `get_tasks` (jira_client.py line 167). -/
def mainSearchFields : List String :=
  ["summary", "description", "status", "assignee", "project", "labels"]

/-- Normalization of one found issue (jira_client.py lines 170-178). -/
def taskOfIssue (issue : RIssue) : TaskEntry :=
  ⟨issue.key, issue.fields.summary, issue.fields.description, issue.fields.statusName,
    (match issue.fields.assignee with
     | some d => d
     | none => "Unassigned"),
    issue.fields.projectKey, issue.fields.labels⟩

/-- The except-block of `get_tasks` (jira_client.py lines 185-200): if the
error text mentions the status field, fetch the project and print its valid
statuses (swallowing any error of that inner lookup), then re-raise the
original exception. -/
def getTasksExceptPath (client : JIRA) (project_key : Option String)
    (cs : List RemoteCall) (os : List String) (e : String) :
    MRes (Except PyError (List TaskEntry)) :=
  if containsSub e "does not exist for the field \x27status\x27" then
    match client.projectStatusesResp project_key with
    | .ok names =>
        ⟨.error (.raised e), cs ++ [.projectCall project_key],
          os ++ ["Valid statuses for this project:"] ++ names⟩
    | .error _ => ⟨.error (.raised e), cs ++ [.projectCall project_key], os⟩
  else
    ⟨.error (.raised e), cs, os⟩

/-- The lines printed by the preliminary-diagnosis block of `get_tasks`
when the preliminary search returned a non-empty issue list
(jira_client.py lines 141-147). -/
def availableStatusLines (issues : List RIssue) : List String :=
  "Available statuses:" ::
    (uniqueSorted (issues.map fun i => i.fields.statusName)).map (fun s => "- " ++ s)

/-- The JQL conditions built by `get_tasks` (jira_client.py lines 150-160),
in source order: project, assignee, one per label, sprint, status. -/
def jqlConditions (project_key assignee : Option String) (labels : Option (List String))
    (sprint status : Option String) : List String :=
  (if strTruthy project_key then ["project = \x27" ++ optStr project_key ++ "\x27"] else []) ++
  (if strTruthy assignee then ["assignee = \x27" ++ optStr assignee ++ "\x27"] else []) ++
  (match labels with
   | some ls => if ls.isEmpty then [] else ls.map fun l => "labels = \x27" ++ l ++ "\x27"
   | none => []) ++
  (if strTruthy sprint then ["sprint = \x27" ++ optStr sprint ++ "\x27"] else []) ++
  (if strTruthy status then ["status = \x27" ++ optStr status ++ "\x27"] else [])

/-- JiraManager.get_tasks (jira_client.py lines 120-200).  When a project
key is given and no other filter is, a preliminary search over the project
(fields `['status']`) is performed first to print the statuses in use; then
the main search runs with the dynamically built JQL query.  Any exception
goes through the except-block, which re-raises it. -/
def JiraManager.get_tasks (client : JIRA) (project_key assignee : Option String)
    (labels : Option (List String)) (sprint status : Option String) :
    MRes (Except PyError (List TaskEntry)) :=
  let jql := String.intercalate " AND " (jqlConditions project_key assignee labels sprint status)
  let mainReq : SearchReq := ⟨jql, mainSearchFields, 1000⟩
  if strTruthy project_key &&
      !(strTruthy assignee || listTruthy labels || strTruthy sprint || strTruthy status) then
    let preReq : SearchReq :=
      ⟨"project = \x27" ++ optStr project_key ++ "\x27", ["status"], 1000⟩
    match client.searchResp preReq with
    | .error e => getTasksExceptPath client project_key [.searchIssues preReq] [] e
    | .ok all_issues =>
        let os := if all_issues.isEmpty then [] else availableStatusLines all_issues
        match client.searchResp mainReq with
        | .error e =>
            getTasksExceptPath client project_key
              [.searchIssues preReq, .searchIssues mainReq] os e
        | .ok issues =>
            ⟨.ok (issues.map taskOfIssue), [.searchIssues preReq, .searchIssues mainReq], os⟩
  else
    match client.searchResp mainReq with
    | .error e => getTasksExceptPath client project_key [.searchIssues mainReq] [] e
    | .ok issues => ⟨.ok (issues.map taskOfIssue), [.searchIssues mainReq], []⟩

/-- A status entry as returned by `get_statuses`.  `issue_type` is `none`
for the global-status path (those dicts carry no such key). -/
structure StatusEntry where
  id : String
  name : String
  description : String
  issue_type : Option String
  category : String
deriving DecidableEq

/-- JiraManager.get_statuses (jira_client.py lines 202-255): global
statuses when no project key, otherwise the project-statuses REST resource,
flattened per issue type; on failure log and re-raise. -/
def JiraManager.get_statuses (client : JIRA) (project_key : Option String) :
    MRes (Except PyError (List StatusEntry)) :=
  if !(strTruthy project_key) then
    match client.statusesResp with
    | .ok sts =>
        ⟨.ok (sts.map fun s =>
            ⟨s.id, s.name, pyOrEmpty s.description, none,
              (match s.categoryName with
               | some c => c
               | none => "")⟩),
          [.statusesCall], []⟩
    | .error e => ⟨.error (.raised e), [.statusesCall], []⟩
  else
    let url := client.serverUrl ++ "/rest/api/2/project/" ++ optStr project_key ++ "/statuses"
    match client.projectStatusesHttp url with
    | .ok blocks =>
        ⟨.ok ((blocks.map fun b =>
            b.statuses.map fun s =>
              ⟨s.id, s.name, s.description.getD "", some b.name, s.categoryName.getD ""⟩).flatten),
          [.getUrl url], []⟩
    | .error e => ⟨.error (.raised e), [.getUrl url], []⟩

/-- One observable event of a CLI invocation: a help render with its
context (`display_help_summary(context)`), a printed line, an outbound
remote call, an argparse usage error printed on parse failure, or the
automatic argparse help of a leaf sub-parser. -/
inductive Event where
  | help (context : Option String)
  | print (line : String)
  | remote (call : RemoteCall)
  | usageError (msg : String)
  | argparseHelp
deriving DecidableEq

/-- How the process ends: a normal return from `main` (process exit
status 0), an explicit `SystemExit` with the given code (argparse), or an
uncaught exception reaching the interpreter (traceback, raw propagation). -/
inductive Outcome where
  | finished
  | exited (code : Nat)
  | uncaught (err : PyError)
deriving DecidableEq

/-- Whether an event is an outbound remote call. -/
def Event.isRemote : Event → Bool
  | .remote _ => true
  | _ => false

/-- The events of one `JiraManager` method execution: its remote calls
followed by its printed lines. -/
def MRes.events {α : Type} (m : MRes α) : List Event :=
  m.calls.map Event.remote ++ m.out.map Event.print

/-- The handler a successful argparse run resolves to, with its bound
option values (the `func` default plus the leaf options of
setup_cli_parser, cli.py lines 271-370). -/
inductive Handler where
  | help
  | projectList
  | projectCreate (name key ptype : String)
  | projectStatuses (project : Option String)
  | taskCreate (project summary : String) (descr : Option String) (ttype : String)
  | taskList (project : String) (assignee status sprint : Option String)
      (labels : Option (List String))
deriving DecidableEq

/-- Result of `parser.parse_args()`: a resolved handler, an argparse error
(usage message printed, `SystemExit(2)`), or the automatic `-h`/`--help`
of a leaf sub-parser (help printed, `SystemExit(0)`). -/
inductive ParseResult where
  | ok (h : Handler)
  | fail (msg : String)
  | helpExit
deriving DecidableEq

/-- The `jira project list` leaf parser (cli.py lines 304-310): no options
of its own, automatic argparse help; any other token is unrecognized. -/
def parseProjectList (ts : List String) : ParseResult :=
  if ts.isEmpty then .ok .projectList
  else if ts.contains "-h" || ts.contains "--help" then .helpExit
  else .fail ("unrecognized arguments: " ++ String.intercalate " " ts)

/-- The `jira project create` leaf parser (cli.py lines 313-323):
`--name` and `--key` required, `--type` restricted to software/service
with default software; automatic argparse help.  Tokens that match no
option are collected and reported as unrecognized, after the
required-option check, as argparse does. -/
def parseProjectCreate : List String → Option String → Option String → Option String →
    List String → ParseResult
  | [], n, k, t, ex =>
    match n, k with
    | some nv, some kv =>
        if ex.isEmpty then .ok (.projectCreate nv kv (t.getD "software"))
        else .fail ("unrecognized arguments: " ++ String.intercalate " " ex)
    | _, _ =>
        .fail ("the following arguments are required: " ++
          String.intercalate ", "
            ((if n.isNone then ["--name"] else []) ++ (if k.isNone then ["--key"] else [])))
  | tok :: rest, n, k, t, ex =>
    if tok == "-h" || tok == "--help" then .helpExit
    else if tok == "--name" then
      match rest with
      | v :: rest2 =>
          if startsDash v then .fail "argument --name: expected one argument"
          else parseProjectCreate rest2 (some v) k t ex
      | [] => .fail "argument --name: expected one argument"
    else if tok == "--key" then
      match rest with
      | v :: rest2 =>
          if startsDash v then .fail "argument --key: expected one argument"
          else parseProjectCreate rest2 n (some v) t ex
      | [] => .fail "argument --key: expected one argument"
    else if tok == "--type" then
      match rest with
      | v :: rest2 =>
          if startsDash v then .fail "argument --type: expected one argument"
          else if v == "software" || v == "service" then parseProjectCreate rest2 n k (some v) ex
          else .fail ("argument --type: invalid choice: \x27" ++ v ++
            "\x27 (choose from \x27software\x27, \x27service\x27)")
      | [] => .fail "argument --type: expected one argument"
    else parseProjectCreate rest n k t (ex ++ [tok])

/-- The `jira project statuses` leaf parser (cli.py lines 326-333):
optional `--project`; automatic argparse help. -/
def parseProjectStatuses : List String → Option String → List String → ParseResult
  | [], proj, ex =>
    if ex.isEmpty then .ok (.projectStatuses proj)
    else .fail ("unrecognized arguments: " ++ String.intercalate " " ex)
  | tok :: rest, proj, ex =>
    if tok == "-h" || tok == "--help" then .helpExit
    else if tok == "--project" then
      match rest with
      | v :: rest2 =>
          if startsDash v then .fail "argument --project: expected one argument"
          else parseProjectStatuses rest2 (some v) ex
      | [] => .fail "argument --project: expected one argument"
    else parseProjectStatuses rest proj (ex ++ [tok])

/-- The `jira task create` leaf parser (cli.py lines 342-354): `--project`
and `--summary` required, `--description` optional, `--type` restricted to
Task/Sub-task/Epic with default Task; automatic argparse help. -/
def parseTaskCreate : List String → Option String → Option String → Option String →
    Option String → List String → ParseResult
  | [], p, s, d, t, ex =>
    match p, s with
    | some pv, some sv =>
        if ex.isEmpty then .ok (.taskCreate pv sv d (t.getD "Task"))
        else .fail ("unrecognized arguments: " ++ String.intercalate " " ex)
    | _, _ =>
        .fail ("the following arguments are required: " ++
          String.intercalate ", "
            ((if p.isNone then ["--project"] else []) ++ (if s.isNone then ["--summary"] else [])))
  | tok :: rest, p, s, d, t, ex =>
    if tok == "-h" || tok == "--help" then .helpExit
    else if tok == "--project" then
      match rest with
      | v :: rest2 =>
          if startsDash v then .fail "argument --project: expected one argument"
          else parseTaskCreate rest2 (some v) s d t ex
      | [] => .fail "argument --project: expected one argument"
    else if tok == "--summary" then
      match rest with
      | v :: rest2 =>
          if startsDash v then .fail "argument --summary: expected one argument"
          else parseTaskCreate rest2 p (some v) d t ex
      | [] => .fail "argument --summary: expected one argument"
    else if tok == "--description" then
      match rest with
      | v :: rest2 =>
          if startsDash v then .fail "argument --description: expected one argument"
          else parseTaskCreate rest2 p s (some v) t ex
      | [] => .fail "argument --description: expected one argument"
    else if tok == "--type" then
      match rest with
      | v :: rest2 =>
          if startsDash v then .fail "argument --type: expected one argument"
          else if v == "Task" || v == "Sub-task" || v == "Epic" then
            parseTaskCreate rest2 p s d (some v) ex
          else .fail ("argument --type: invalid choice: \x27" ++ v ++
            "\x27 (choose from \x27Task\x27, \x27Sub-task\x27, \x27Epic\x27)")
      | [] => .fail "argument --type: expected one argument"
    else parseTaskCreate rest p s d t (ex ++ [tok])

/-- The `jira task list` leaf parser (cli.py lines 357-368): `--project`
required; optional `--assignee`, `--status`, `--sprint`, and `--labels`
taking one or more values; automatic argparse help.  The recursion is
driven by a token-count fuel so that every step is structural (the
`--labels` branch consumes several tokens at once); the fuel equals the
token count, so the zero-fuel case is unreachable. -/
def parseTaskListAux : Nat → List String → Option String → Option String → Option String →
    Option String → Option (List String) → List String → ParseResult
  | _, [], p, a, st, sp, lb, ex =>
    match p with
    | some pv =>
        if ex.isEmpty then .ok (.taskList pv a st sp lb)
        else .fail ("unrecognized arguments: " ++ String.intercalate " " ex)
    | none => .fail "the following arguments are required: --project"
  | 0, _ :: _, _, _, _, _, _, _ => .fail "the following arguments are required: --project"
  | fuel + 1, tok :: rest, p, a, st, sp, lb, ex =>
    if tok == "-h" || tok == "--help" then .helpExit
    else if tok == "--project" then
      match rest with
      | v :: rest2 =>
          if startsDash v then .fail "argument --project: expected one argument"
          else parseTaskListAux fuel rest2 (some v) a st sp lb ex
      | [] => .fail "argument --project: expected one argument"
    else if tok == "--assignee" then
      match rest with
      | v :: rest2 =>
          if startsDash v then .fail "argument --assignee: expected one argument"
          else parseTaskListAux fuel rest2 p (some v) st sp lb ex
      | [] => .fail "argument --assignee: expected one argument"
    else if tok == "--status" then
      match rest with
      | v :: rest2 =>
          if startsDash v then .fail "argument --status: expected one argument"
          else parseTaskListAux fuel rest2 p a (some v) sp lb ex
      | [] => .fail "argument --status: expected one argument"
    else if tok == "--sprint" then
      match rest with
      | v :: rest2 =>
          if startsDash v then .fail "argument --sprint: expected one argument"
          else parseTaskListAux fuel rest2 p a st (some v) lb ex
      | [] => .fail "argument --sprint: expected one argument"
    else if tok == "--labels" then
      let vals := rest.takeWhile (fun t => !(startsDash t))
      if vals.isEmpty then .fail "argument --labels: expected at least one argument"
      else parseTaskListAux fuel (rest.drop vals.length) p a st sp (some vals) ex
    else parseTaskListAux fuel rest p a st sp lb (ex ++ [tok])

/-- Entry point of the `jira task list` leaf parser. -/
def parseTaskList (ts : List String) : ParseResult :=
  parseTaskListAux ts.length ts none none none none none []

/-- The `jira project` group parser (cli.py lines 298-333): its own
`-h`/`--help` flags (stored, leaving `func` at the `handle_help` default)
and the list/create/statuses sub-commands. -/
def parseProject : List String → ParseResult
  | [] => .ok .help
  | tok :: rest =>
    if tok == "-h" || tok == "--help" then parseProject rest
    else if tok == "list" then parseProjectList rest
    else if tok == "create" then parseProjectCreate rest none none none []
    else if tok == "statuses" then parseProjectStatuses rest none []
    else if startsDash tok then
      .fail ("unrecognized arguments: " ++ String.intercalate " " (tok :: rest))
    else
      .fail ("argument project_command: invalid choice: \x27" ++ tok ++
        "\x27 (choose from \x27list\x27, \x27create\x27, \x27statuses\x27)")

/-- The `jira task` group parser (cli.py lines 336-368). -/
def parseTask : List String → ParseResult
  | [] => .ok .help
  | tok :: rest =>
    if tok == "-h" || tok == "--help" then parseTask rest
    else if tok == "create" then parseTaskCreate rest none none none none []
    else if tok == "list" then parseTaskList rest
    else if startsDash tok then
      .fail ("unrecognized arguments: " ++ String.intercalate " " (tok :: rest))
    else
      .fail ("argument task_command: invalid choice: \x27" ++ tok ++
        "\x27 (choose from \x27create\x27, \x27list\x27)")

/-- The `jira` group parser (cli.py lines 292-295). -/
def parseJira : List String → ParseResult
  | [] => .ok .help
  | tok :: rest =>
    if tok == "-h" || tok == "--help" then parseJira rest
    else if tok == "project" then parseProject rest
    else if tok == "task" then parseTask rest
    else if startsDash tok then
      .fail ("unrecognized arguments: " ++ String.intercalate " " (tok :: rest))
    else
      .fail ("argument jira_command: invalid choice: \x27" ++ tok ++
        "\x27 (choose from \x27project\x27, \x27task\x27)")

/-- The top-level parser built by setup_cli_parser (cli.py lines 271-370):
`-h`/`--help` stored flags, the `jira` sub-parser, and `handle_help` as
the default `func`.  A first token that is not `jira` and not option-like
is an invalid sub-parser choice. -/
def parse_args : List String → ParseResult
  | [] => .ok .help
  | tok :: rest =>
    if tok == "-h" || tok == "--help" then parse_args rest
    else if tok == "jira" then parseJira rest
    else if startsDash tok then
      .fail ("unrecognized arguments: " ++ String.intercalate " " (tok :: rest))
    else
      .fail ("argument command: invalid choice: \x27" ++ tok ++
        "\x27 (choose from \x27jira\x27)")

/-- The help trigger tokens (cli.py line 11). -/
def help_commands : List String := ["help", "-h", "--help"]

/-- handle_jira_project_list (cli.py lines 110-128).  The `except` clause
names `JiraException`, which is neither defined nor imported in cli.py, so
the moment any exception is raised inside the `try` block the clause
itself raises `NameError` and the exception handling never runs. -/
def handle_jira_project_list (env : JiraEnv) : List Event × Outcome :=
  let m := JiraManager.mk env
  match m.result with
  | .error _ => (m.events, .uncaught (.nameError "JiraException"))
  | .ok client =>
    let g := JiraManager.get_projects client
    match g.result with
    | .error _ => (m.events ++ g.events, .uncaught (.nameError "JiraException"))
    | .ok projects =>
      if projects.isEmpty then
        (m.events ++ g.events ++ [.print "No projects found."], .finished)
      else
        (m.events ++ g.events ++ [.print "Jira Projects:"] ++
          projects.map (fun p => .print ("- " ++ p.key ++ ": " ++ p.name)), .finished)

/-- handle_jira_project_create (cli.py lines 130-155).  `create_project`
itself never raises (it returns `None` on failure), so the undefined
`JiraException` clause is only reached when `JiraManager()` raises. -/
def handle_jira_project_create (env : JiraEnv) (name key ptype : String) :
    List Event × Outcome :=
  let m := JiraManager.mk env
  match m.result with
  | .error _ => (m.events, .uncaught (.nameError "JiraException"))
  | .ok client =>
    let c := JiraManager.create_project client name key ptype
    match c.result with
    | some p =>
        (m.events ++ c.events ++
          [.print "Project created successfully:", .print ("- Key: " ++ p.key),
            .print ("- Name: " ++ p.name)], .finished)
    | none => (m.events ++ c.events ++ [.print "Failed to create project."], .finished)

/-- handle_jira_project_statuses grouping (cli.py lines 177-182):
statuses grouped by `status.get('issue_type', 'Unknown')` in first-seen
order. -/
def groupStatuses (l : List StatusEntry) : List (String × List StatusEntry) :=
  l.foldl (fun acc s =>
    let k := s.issue_type.getD "Unknown"
    if acc.any (fun p => p.1 == k) then
      acc.map (fun p => if p.1 == k then (p.1, p.2 ++ [s]) else p)
    else acc ++ [(k, [s])]) []

/-- The lines printed for one issue-type group (cli.py lines 185-193). -/
def statusGroupLines (g : String × List StatusEntry) : List String :=
  ("\n" ++ g.1 ++ " Issue Type Statuses:") ::
    (g.2.map (fun s =>
      ["- " ++ s.id ++ " - " ++ s.name] ++
      (if s.description == "" then [] else ["  Description: " ++ s.description]) ++
      (if s.category == "" then [] else ["  Category: " ++ s.category]))).flatten ++ [""]

/-- handle_jira_project_statuses (cli.py lines 157-196); this handler has
a genuine `except Exception` clause, so failures are caught, a failure
line printed, and the handler returns normally. -/
def handle_jira_project_statuses (env : JiraEnv) (project : Option String) :
    List Event × Outcome :=
  let failLine : Event := .print "Failed to retrieve statuses. Please check the logs for more details."
  let m := JiraManager.mk env
  match m.result with
  | .error _ => (m.events ++ [failLine], .finished)
  | .ok client =>
    let g := JiraManager.get_statuses client project
    match g.result with
    | .error _ => (m.events ++ g.events ++ [failLine], .finished)
    | .ok statuses =>
      if statuses.isEmpty then (m.events ++ g.events ++ [.print "No statuses found."], .finished)
      else
        (m.events ++ g.events ++
          [.print ("Statuses" ++
            (if strTruthy project then " for Project " ++ optStr project else "") ++ ":")] ++
          ((groupStatuses statuses).map statusGroupLines).flatten.map Event.print, .finished)

/-- handle_jira_task_create (cli.py lines 198-225); like project create,
the undefined `JiraException` clause is only reached when `JiraManager()`
raises. -/
def handle_jira_task_create (env : JiraEnv) (project summary : String)
    (descr : Option String) (ttype : String) : List Event × Outcome :=
  let m := JiraManager.mk env
  match m.result with
  | .error _ => (m.events, .uncaught (.nameError "JiraException"))
  | .ok client =>
    let c := JiraManager.create_task client project summary descr ttype
    match c.result with
    | some t =>
        (m.events ++ c.events ++
          [.print "Task created successfully:", .print ("- Key: " ++ t.key),
            .print ("- Summary: " ++ t.summary), .print ("- Project: " ++ t.project)], .finished)
    | none => (m.events ++ c.events ++ [.print "Failed to create task."], .finished)

/-- The lines printed for one listed task (cli.py lines 251-257). -/
def taskLines (t : TaskEntry) : List String :=
  ["- " ++ t.key ++ ": " ++ t.summary, "  Status: " ++ t.status,
    "  Assignee: " ++ t.assignee] ++
  (if t.labels.isEmpty then [] else ["  Labels: " ++ String.intercalate ", " t.labels]) ++ [""]

/-- handle_jira_task_list (cli.py lines 227-260); this handler has a
genuine `except Exception` clause, so failures are caught, a failure line
printed, and the handler returns normally (process exit status 0). -/
def handle_jira_task_list (env : JiraEnv) (project : String)
    (assignee status sprint : Option String) (labels : Option (List String)) :
    List Event × Outcome :=
  let failLine : Event := .print "Failed to list tasks. Please check the logs for more details."
  let m := JiraManager.mk env
  match m.result with
  | .error _ => (m.events ++ [failLine], .finished)
  | .ok client =>
    let g := JiraManager.get_tasks client (some project) assignee labels sprint status
    match g.result with
    | .error _ => (m.events ++ g.events ++ [failLine], .finished)
    | .ok tasks =>
      if tasks.isEmpty then
        (m.events ++ g.events ++ [.print "No tasks found matching the specified criteria."],
          .finished)
      else
        (m.events ++ g.events ++ [.print ("Tasks for Project " ++ project ++ ":")] ++
          (tasks.map taskLines).flatten.map Event.print, .finished)

/-- Dispatch of the resolved handler (`args.func(args)`, cli.py line 402). -/
def runHandler (env : JiraEnv) : Handler → List Event × Outcome
  | .help => ([.help none], .finished)
  | .projectList => handle_jira_project_list env
  | .projectCreate n k t => handle_jira_project_create env n k t
  | .projectStatuses p => handle_jira_project_statuses env p
  | .taskCreate p s d t => handle_jira_task_create env p s d t
  | .taskList p a st sp lb => handle_jira_task_list env p a st sp lb

/-- The main dispatcher (cli.py lines 372-402), over `argv = sys.argv[1:]`.
Before formal parsing it renders help when the final token is a help
trigger (scoped to the joined preceding tokens; no return follows, so
execution continues), renders top-level help when the argument list is
empty or starts with a help trigger, and only then parses and dispatches. -/
def cliMain (env : JiraEnv) (argv : List String) : List Event × Outcome :=
  let ev1 : List Event :=
    if argv.isEmpty then []
    else if help_commands.contains (argv.getLastD "") then
      [.help (if 2 ≤ argv.length then some (String.intercalate " " argv.dropLast) else none)]
    else []
  let ev2 : List Event :=
    if argv.isEmpty || ["-h", "--help", "help"].contains (argv.headD "") then
      [.help none]
    else []
  match parse_args argv with
  | .fail msg => (ev1 ++ ev2 ++ [.usageError msg], .exited 2)
  | .helpExit => (ev1 ++ ev2 ++ [.argparseHelp], .exited 0)
  | .ok h =>
    let r := runHandler env h
    (ev1 ++ ev2 ++ r.1, r.2)

/-- Uppercasing of a string, character by character (the canonical form of
tracker project keys). -/
def strUpper (s : String) : String := ⟨s.data.map Char.toUpper⟩

/-- Modelled from the spec: the remote tracker itself is not part of this
repository; per the specification a Project key is "unique, uppercase by
convention" and the task returned by `createTask` carries the supplied
project key uppercased.  A tracker-like remote endpoint therefore reports,
for every successfully created issue, the canonical uppercase form of the
project key named in the payload. -/
def UppercaseKeyTracker (client : JIRA) : Prop :=
  ∀ p i, client.createIssueResp p = .ok i → i.fields.projectKey = strUpper p.project

/-- A healthy remote endpoint: connection succeeds, no projects, empty
search results, project creation rejected, issue creation reports the
uppercased project key. -/
def clientOk : JIRA where
  serverUrl := "https://tracker.example"
  currentUserResp := .ok "user"
  projectsResp := .ok []
  createProjectResp := fun _ => .error "rejected"
  createIssueResp := fun p =>
    .ok ⟨strUpper p.project ++ "-1", ⟨p.summary, none, "To Do", none, strUpper p.project, []⟩⟩
  searchResp := fun _ => .ok []
  projectStatusesResp := fun _ => .ok []
  statusesResp := .ok []
  projectStatusesHttp := fun _ => .ok []

/-- An environment whose remote endpoint is healthy. -/
def envOk : JiraEnv := ⟨.ok clientOk⟩

/-- An environment whose remote endpoint is unreachable: constructing the
library handle raises. -/
def envDown : JiraEnv := ⟨.error "Connection refused"⟩

/-- The error text of a rejected project creation. -/
def rejectMsg : String := "A project with key DEMO already exists"

/-- A remote endpoint that rejects project creation (duplicate key). -/
def clientRejectCreate : JIRA :=
  { clientOk with createProjectResp := fun _ => .error rejectMsg }

/-- An environment whose endpoint rejects project creation. -/
def envRejectCreate : JiraEnv := ⟨.ok clientRejectCreate⟩

/-- The error text the tracker gives for a status filter that is not valid
for the project workflow. -/
def statusErrMsg : String :=
  "The value \x27Bogus\x27 does not exist for the field \x27status\x27."

/-- A remote endpoint whose searches fail with the invalid-status error and
which can report the valid workflow statuses of the project. -/
def clientBogusStatus : JIRA :=
  { clientOk with
      searchResp := fun _ => .error statusErrMsg
      projectStatusesResp := fun _ => .ok ["Done", "In Progress", "To Do"] }

/-- A remote endpoint whose project listing fails with an arbitrary remote
error (here, with the same text as the invalid-status failure). -/
def clientGenericFail : JIRA :=
  { clientOk with projectsResp := .error statusErrMsg }

theorem intercalate_single (s a : String) : String.intercalate s [a] = a := rfl

/-- Claim C1, counterexample: the raw argument list
`jira task list --project help` ends in the help trigger `help`, yet the
dispatcher does not stop after rendering help: formal parsing consumes
`help` as the value of `--project`, the task-list handler is invoked, and
remote (adapter) calls occur; the process then finishes normally. -/
theorem trailing_help_trigger_dispatch_counterexample :
    help_commands.contains
      ((["jira", "task", "list", "--project", "help"] : List String).getLastD "") = true ∧
    (cliMain envOk ["jira", "task", "list", "--project", "help"]).1.any Event.isRemote = true ∧
    (cliMain envOk ["jira", "task", "list", "--project", "help"]).2 = .finished := by decide

/-- Claim C1, amended: whenever the final token is a help trigger, the
dispatcher first renders help scoped to the joined preceding tokens (the
first event of the trace), but execution continues into formal parsing;
no remote call occurs only when that parse fails or hits the automatic
argparse help of a leaf sub-parser. -/
theorem trailing_help_trigger_renders_help_before_dispatch (env : JiraEnv)
    (argv : List String) (h1 : argv ≠ [])
    (h2 : help_commands.contains (argv.getLastD "") = true) :
    (cliMain env argv).1.head? =
      some (.help (if 2 ≤ argv.length then some (String.intercalate " " argv.dropLast)
        else none)) ∧
    (∀ msg, parse_args argv = .fail msg →
      (cliMain env argv).1.any Event.isRemote = false) ∧
    (parse_args argv = .helpExit →
      (cliMain env argv).1.any Event.isRemote = false) := by
  have hne : argv.isEmpty = false := by
    cases argv with
    | nil => exact absurd rfl h1
    | cons a l => rfl
  refine ⟨?_, ?_, ?_⟩
  · cases hp : parse_args argv <;> simp_all [cliMain]
  · intro msg hmsg
    cases hb : (["-h", "--help", "help"] : List String).contains (argv.headD "") <;>
      simp [cliMain, hne, h2, hmsg, hb, Event.isRemote]
  · intro hhe
    cases hb : (["-h", "--help", "help"] : List String).contains (argv.headD "") <;>
      simp [cliMain, hne, h2, hhe, hb, Event.isRemote]

/-- Claim C1, witness: on `jira help` the first trace event is a help
render scoped to `jira`. -/
theorem trailing_help_trigger_renders_help_witness :
    (cliMain envOk ["jira", "help"]).1.head? = some (Event.help (some "jira")) := by
  have h := (trailing_help_trigger_renders_help_before_dispatch envOk ["jira", "help"]
    (by decide) (by decide)).1
  exact h.trans (by decide)

/-- Claim C2: evaluation at a failing input.  With the tracker
unreachable, `jira project list` raises `RuntimeError` inside the handler
body; the handler's `except JiraException` clause names an undefined
identifier, so a raw `NameError` propagates to the process boundary
instead of being converted to a message.  The handlers that do catch
(`jira task list`) print a failure line but return normally, so that
process exits with status 0, not non-zero. -/
theorem remote_failure_escapes_handler_as_nameerror :
    (cliMain envDown ["jira", "project", "list"]).2 =
      .uncaught (.nameError "JiraException") ∧
    (cliMain envDown ["jira", "task", "list", "--project", "P"]).2 = .finished ∧
    (cliMain envDown ["jira", "task", "list", "--project", "P"]).1.getLastD (.help none) =
      .print "Failed to list tasks. Please check the logs for more details." := by decide

/-- Claim C3, counterexample: when the tracker rejects
`createProject("Demo", "demo", "software")`, the adapter returns `None`
rather than failing with an error kind, and the CLI invocation prints the
failure message but finishes normally, i.e. exits with status 0, not
non-zero. -/
theorem create_project_rejection_counterexample :
    (JiraManager.create_project clientRejectCreate "Demo" "demo" "software").result = none ∧
    (cliMain envRejectCreate ["jira", "project", "create", "--name", "Demo",
      "--key", "demo"]).2 = .finished ∧
    Event.print "Failed to create project." ∈
      (cliMain envRejectCreate ["jira", "project", "create", "--name", "Demo",
        "--key", "demo"]).1 := by decide

/-- Claim C3, amended: whenever the remote service rejects the
create-project payload, the adapter catches the error and returns `None`
after its single outbound call; no error kind is surfaced to the caller. -/
theorem create_project_rejection_returns_none (client : JIRA) (name key msg : String)
    (h : client.createProjectResp ⟨key, name, "software"⟩ = .error msg) :
    (JiraManager.create_project client name key "software").result = none ∧
    (JiraManager.create_project client name key "software").calls =
      [.createProjectCall ⟨key, name, "software"⟩] := by
  simp [JiraManager.create_project, h]

/-- Claim C3, witness: the rejecting endpoint makes `create_project`
return `None`. -/
theorem create_project_rejection_returns_none_witness :
    (JiraManager.create_project clientRejectCreate "Demo" "demo" "software").result = none :=
  (create_project_rejection_returns_none clientRejectCreate "Demo" "demo" rejectMsg rfl).1

/-- Claim C4, counterexample: a task listing that supplies only a project
key performs two search requests (the preliminary status-diagnosis query
with fields `['status']`, then the main search), not exactly one. -/
theorem get_tasks_preliminary_query_counterexample :
    (JiraManager.get_tasks clientOk (some "PROJ") none none none none).calls =
      [.searchIssues ⟨"project = \x27PROJ\x27", ["status"], 1000⟩,
       .searchIssues ⟨"project = \x27PROJ\x27", mainSearchFields, 1000⟩] ∧
    (JiraManager.get_tasks clientOk (some "PROJ") none none none none).calls.length ≠ 1 := by
  decide

/-- Claim C4, amended: whenever only a project key is supplied and both
searches succeed, `get_tasks` performs exactly two outbound calls: the
preliminary status-gathering search followed by the main search. -/
theorem get_tasks_project_only_makes_two_searches (client : JIRA) (pk : String)
    (r1 r2 : List RIssue) (hpk : pk ≠ "")
    (h1 : client.searchResp ⟨"project = \x27" ++ pk ++ "\x27", ["status"], 1000⟩ = .ok r1)
    (h2 : client.searchResp ⟨"project = \x27" ++ pk ++ "\x27", mainSearchFields, 1000⟩ =
      .ok r2) :
    (JiraManager.get_tasks client (some pk) none none none none).calls =
      [.searchIssues ⟨"project = \x27" ++ pk ++ "\x27", ["status"], 1000⟩,
       .searchIssues ⟨"project = \x27" ++ pk ++ "\x27", mainSearchFields, 1000⟩] := by
  simp [JiraManager.get_tasks, jqlConditions, strTruthy, listTruthy, optStr, hpk,
    intercalate_single, h1, h2]

/-- Claim C4, witness: the two-search trace at a concrete endpoint. -/
theorem get_tasks_project_only_two_searches_witness :
    (JiraManager.get_tasks clientOk (some "PROJ") none none none none).calls =
      [.searchIssues ⟨"project = \x27PROJ\x27", ["status"], 1000⟩,
       .searchIssues ⟨"project = \x27PROJ\x27", mainSearchFields, 1000⟩] := by
  have h := get_tasks_project_only_makes_two_searches clientOk "PROJ" [] []
    (by decide) rfl rfl
  exact h.trans (by decide)

/-- Claim C5, counterexample: with a status filter that is invalid for the
project, `get_tasks` re-raises the original library error unchanged, the
same generic error kind (and here the very same error value) that a plain
remote failure of another operation produces; no distinct
`InvalidStatusFilter` error kind exists in the code. -/
theorem invalid_status_filter_counterexample :
    (JiraManager.get_tasks clientBogusStatus (some "PROJ") none none none
      (some "Bogus")).result = .error (.raised statusErrMsg) ∧
    (JiraManager.get_projects clientGenericFail).result =
      .error (.raised statusErrMsg) := by decide

/-- Claim C5, amended: when the supplied status is not valid for the
project (the remote error text names the status field), `get_tasks`
prints the project's valid workflow statuses as a diagnostic, performs the
extra project lookup, and re-raises the original error as the same generic
raised kind used for every remote failure. -/
theorem invalid_status_prints_valid_statuses_and_reraises (client : JIRA)
    (pk st e : String) (names : List String) (hpk : pk ≠ "") (hst : st ≠ "")
    (hq : client.searchResp
        ⟨String.intercalate " AND " (jqlConditions (some pk) none none none (some st)),
          mainSearchFields, 1000⟩ = .error e)
    (hm : containsSub e "does not exist for the field \x27status\x27" = true)
    (hs : client.projectStatusesResp (some pk) = .ok names) :
    (JiraManager.get_tasks client (some pk) none none none (some st)).result =
      .error (.raised e) ∧
    (JiraManager.get_tasks client (some pk) none none none (some st)).out =
      "Valid statuses for this project:" :: names ∧
    (JiraManager.get_tasks client (some pk) none none none (some st)).calls =
      [.searchIssues
          ⟨String.intercalate " AND " (jqlConditions (some pk) none none none (some st)),
            mainSearchFields, 1000⟩,
        .projectCall (some pk)] := by
  simp [JiraManager.get_tasks, strTruthy, hpk, hst, hq, getTasksExceptPath, hm, hs]

/-- Claim C5, witness: the bogus-status endpoint makes `get_tasks`
re-raise the generic error. -/
theorem invalid_status_reraises_witness :
    (JiraManager.get_tasks clientBogusStatus (some "PROJ") none none none
      (some "Bogus")).result = .error (.raised statusErrMsg) :=
  (invalid_status_prints_valid_statuses_and_reraises clientBogusStatus "PROJ" "Bogus"
    statusErrMsg ["Done", "In Progress", "To Do"] (by decide) (by decide) rfl
    (by decide) rfl).1

/-- Claim C6: `create_task` with no task type supplied sends a payload
whose issue type is `Task`, and against a tracker that reports canonical
uppercase project keys the returned task's project key is the supplied
key uppercased. -/
theorem create_task_default_type_and_uppercased_key (client : JIRA)
    (pk summary : String) (issue : RIssue) (htr : UppercaseKeyTracker client)
    (hok : client.createIssueResp ⟨pk, summary, "", "Task"⟩ = .ok issue) :
    (JiraManager.create_task_defaulted client pk summary).calls =
      [.createIssueCall ⟨pk, summary, "", "Task"⟩] ∧
    (JiraManager.create_task_defaulted client pk summary).result =
      some ⟨issue.key, issue.fields.summary, strUpper pk⟩ := by
  have hk := htr _ _ hok
  simp [JiraManager.create_task_defaulted, JiraManager.create_task, pyOrEmpty, hok, hk]

/-- Claim C6, witness: creating a task in project `proj` without a type
returns a task whose project key is `PROJ`. -/
theorem create_task_default_type_witness :
    (JiraManager.create_task_defaulted clientOk "proj" "Fix bug").result =
      some ⟨"PROJ-1", "Fix bug", "PROJ"⟩ := by
  have h := (create_task_default_type_and_uppercased_key clientOk "proj" "Fix bug"
    ⟨strUpper "proj" ++ "-1", ⟨"Fix bug", none, "To Do", none, strUpper "proj", []⟩⟩
    (fun p i hpi => by cases hpi; rfl) rfl).2
  exact h.trans (by decide)

/-- Claim C7: invoking `jira project create --name X` without the required
`--key` is an argparse failure naming `--key`; the process exits with the
non-zero status 2, the usage error is the only trace event, and no remote
call (in particular no adapter construction) happens, whatever the remote
environment. -/
theorem project_create_missing_key_is_parse_failure (env : JiraEnv) :
    parse_args ["jira", "project", "create", "--name", "X"] =
      .fail "the following arguments are required: --key" ∧
    (cliMain env ["jira", "project", "create", "--name", "X"]).2 = .exited 2 ∧
    (cliMain env ["jira", "project", "create", "--name", "X"]).1 =
      [.usageError "the following arguments are required: --key"] ∧
    (cliMain env ["jira", "project", "create", "--name", "X"]).1.any Event.isRemote = false :=
  ⟨rfl, rfl, rfl, rfl⟩

/-- Claim C7, witness: the parse failure at a concrete environment. -/
theorem project_create_missing_key_witness :
    (cliMain envOk ["jira", "project", "create", "--name", "X"]).2 = .exited 2 :=
  (project_create_missing_key_is_parse_failure envOk).2.1

/-- Claim C8: against a tracker reporting zero projects, `get_projects`
returns the empty list (not an error), and the `jira project list`
invocation prints `No projects found.` and finishes normally (process
exit status 0), after exactly its connection and listing calls. -/
theorem empty_project_listing_is_success (client : JIRA) (u : String)
    (hu : client.currentUserResp = .ok u) (hp : client.projectsResp = .ok []) :
    (JiraManager.get_projects client).result = .ok [] ∧
    (cliMain ⟨.ok client⟩ ["jira", "project", "list"]).2 = .finished ∧
    (cliMain ⟨.ok client⟩ ["jira", "project", "list"]).1 =
      [.remote .connect, .remote .currentUser, .remote .projectsCall,
        .print "No projects found."] := by
  have hparse : parse_args ["jira", "project", "list"] = .ok .projectList := rfl
  have hm : JiraManager.mk ⟨.ok client⟩ = ⟨.ok client, [.connect, .currentUser], []⟩ := by
    simp [JiraManager.mk, hu]
  have hg : JiraManager.get_projects client = ⟨.ok [], [.projectsCall], []⟩ := by
    simp [JiraManager.get_projects, hp]
  refine ⟨by simp [hg], ?_, ?_⟩ <;>
    simp [cliMain, hparse, runHandler, handle_jira_project_list, hm, hg, MRes.events,
      help_commands]

/-- Claim C8, witness: the empty listing at a concrete healthy endpoint. -/
theorem empty_project_listing_witness :
    (cliMain ⟨.ok clientOk⟩ ["jira", "project", "list"]).2 = .finished :=
  (empty_project_listing_is_success clientOk "user" rfl rfl).2.1

/-- Claim C9: every failure during `JiraManager` construction — whether
the handle construction itself or the `current_user()` verification — is
surfaced as a `RuntimeError` whose message is
`Jira client initialization failed: ` followed by the original error text,
and every construction error is of that shape, so no remote-library
exception escapes the constructor. -/
theorem init_failure_wrapped_in_runtime_error (env : JiraEnv) (msg : String) :
    (env.connectResp = .error msg →
      (JiraManager.mk env).result =
        .error (.runtimeError ("Jira client initialization failed: " ++ msg))) ∧
    (∀ client : JIRA, env.connectResp = .ok client →
      client.currentUserResp = .error msg →
      (JiraManager.mk env).result =
        .error (.runtimeError ("Jira client initialization failed: " ++ msg))) ∧
    (∀ e : PyError, (JiraManager.mk env).result = .error e →
      ∃ m : String, e = .runtimeError ("Jira client initialization failed: " ++ m)) := by
  refine ⟨fun h => by simp [JiraManager.mk, h],
    fun client h hcu => by simp [JiraManager.mk, h, hcu], ?_⟩
  intro e he
  unfold JiraManager.mk at he
  cases hc : env.connectResp with
  | error m => rw [hc] at he; simp at he; exact ⟨m, he.symm⟩
  | ok client =>
    rw [hc] at he
    simp only [] at he
    cases hcu : client.currentUserResp with
    | error m => simp [hcu] at he; exact ⟨m, he.symm⟩
    | ok u => simp [hcu] at he

/-- Claim C9, witness: the unreachable endpoint yields the wrapped
`RuntimeError`. -/
theorem init_failure_wrapped_witness :
    (JiraManager.mk envDown).result =
      .error (.runtimeError ("Jira client initialization failed: " ++ "Connection refused")) :=
  (init_failure_wrapped_in_runtime_error envDown "Connection refused").1 rfl

/-- Claim C10: `create_task` with the description omitted (`None`) sends a
payload whose description field is the empty string — a string, never a
null value — whatever the endpoint, project key, summary, or task type. -/
theorem create_task_omitted_description_sends_empty_string (client : JIRA)
    (pk summary ttype : String) :
    (JiraManager.create_task client pk summary none ttype).calls =
      [.createIssueCall ⟨pk, summary, "", ttype⟩] := by
  cases h : client.createIssueResp ⟨pk, summary, "", ttype⟩ <;>
    simp [JiraManager.create_task, pyOrEmpty, h]

/-- Claim C10, witness: the empty-description payload at a concrete
endpoint. -/
theorem create_task_omitted_description_witness :
    (JiraManager.create_task clientOk "PROJ" "Fix bug" none "Task").calls =
      [.createIssueCall ⟨"PROJ", "Fix bug", "", "Task"⟩] :=
  create_task_omitted_description_sends_empty_string clientOk "PROJ" "Fix bug" "Task"
